import Mathlib

/-!
Verification of the playback orchestration subsystem of the music-player
repository: the song queue model (models/Song), the scheduler service
(services/scheduler.js), the socket event handlers (socket/index.js) and
the playback HTTP routes (routes/playback.js).  Each definition is a
shallow embedding of the corresponding JavaScript function; database rows
are explicit records, Maps are association lists in insertion order, and
external I/O (stream extraction, announcement generation, the offline
library) is an oracle argument.  Timestamps are integer milliseconds.
-/

namespace MusicPlayer

/-- A row of the songs table (models/Song, part_005).  Fields not consulted
by the playback core (title, artist, thumbnail, duration, youtube id,
added-by) are omitted; played-at and added-at are millisecond timestamps. -/
structure Song where
  id : Nat
  starred : Bool
  played : Bool
  played_at : Option Int
  added_at : Int
  youtube_url : Option String
  dedication_message : Option String
  deriving Repr, DecidableEq

/-- Song.markAsPlayed (part_005 lines 34-38): sets played and stamps
played-at with the current time. -/
def Song.markAsPlayed (s : Song) (now : Int) : Song :=
  { s with played := true, played_at := some now }

/-- Song.restoreToQueue (part_005 lines 41-46): resets played and clears
played-at, keeping votes and dedication. -/
def Song.restoreToQueue (s : Song) : Song :=
  { s with played := false, played_at := none }

/-- The pre-fetch reservation, scheduler.js line 266:
topSong.update with played set to true and nothing else touched. -/
def Song.reserveForSchedule (s : Song) : Song :=
  { s with played := true }

/-- The reservation rollback, scheduler.js line 283: topSong.update with
played set back to false and nothing else touched. -/
def Song.unreserve (s : Song) : Song :=
  { s with played := false }

/-- The votes table, reduced to the song id of each vote row; the vote
count of the LEFT JOIN in Song.getTopVoted is the multiplicity here. -/
def voteCount (votes : List Nat) (s : Song) : Nat :=
  votes.count s.id

/-- The strict order of the ORDER BY clause of Song.getTopVoted
(part_005 line 21): starred DESC, vote count DESC, added-at ASC.
True when a sorts strictly before b. -/
def songBefore (votes : List Nat) (a b : Song) : Bool :=
  if a.starred != b.starred then a.starred
  else if voteCount votes a != voteCount votes b then
    decide (voteCount votes b < voteCount votes a)
  else decide (a.added_at < b.added_at)

/-- One comparison step of selecting the first row of the ordered query:
keep the incumbent unless the candidate sorts strictly before it. -/
def chooseBetter (votes : List Nat) (b s : Song) : Song :=
  if songBefore votes s b then s else b

/-- Song.getTopVoted (part_005 lines 10-31): the first row of the unplayed
songs ordered by starred DESC, vote count DESC, added-at ASC, or none when
every song is played.  The SQL LIMIT 1 is embedded as a fold taking the
least element under the strict order, keeping the earlier row on ties. -/
def Song.getTopVoted (songs : List Song) (votes : List Nat) : Option Song :=
  match songs.filter (fun s => !s.played) with
  | [] => none
  | s :: t => some (t.foldl (chooseBetter votes) s)

/-- A row of the schedules table (models/Schedule): name, created-at and
the like are omitted; last-run and next-run are millisecond timestamps. -/
structure Schedule where
  id : Nat
  cron_expression : String
  volume : Nat
  song_count : Nat
  is_active : Bool
  last_run : Option Int
  next_run : Option Int
  deriving Repr, DecidableEq

/-- The singleton playback-state row (models/PlaybackState). -/
structure PlaybackStateRec where
  current_song_id : Option Nat
  is_playing : Bool
  volume : Nat
  position : Nat
  deriving Repr, DecidableEq

/-- The persisted stores the playback core reads and writes.  getCurrent is
a find-or-create, so the playback row is always present here. -/
structure DB where
  songs : List Song
  votes : List Nat
  schedules : List Schedule
  playback : PlaybackStateRec
  deriving Repr, DecidableEq

def findSchedule (db : DB) (sid : Nat) : Option Schedule :=
  db.schedules.find? (fun x => x.id == sid)

def updateScheduleRow (db : DB) (sid : Nat) (f : Schedule → Schedule) : DB :=
  { db with schedules := db.schedules.map (fun x => if x.id == sid then f x else x) }

def updateSongRow (db : DB) (i : Nat) (f : Song → Song) : DB :=
  { db with songs := db.songs.map (fun s => if s.id == i then f s else s) }

/-- The played flag of the song row with the given id, none when no such
row exists. -/
def songPlayed (db : DB) (i : Nat) : Option Bool :=
  (db.songs.find? (fun s => s.id == i)).map (·.played)

/-- A generated DJ announcement (services/dj): the spoken text and, when
TTS synthesis succeeded, the name of the cached audio file. -/
structure Announcement where
  text : String
  audioPath : Option String
  deriving Repr, DecidableEq

/-- One entry of the scheduler's scheduledSongs map (scheduler.js line 12):
the locked song, its resolved stream URL, the pre-generated announcement
and the offline-fallback flag. -/
structure PreparedData where
  song : Option Song
  streamUrl : Option String
  announcementData : Option Announcement
  isOffline : Bool
  deriving Repr, DecidableEq

/-- A track of the local library (services/offlineMusic). -/
structure OfflineTrack where
  title : String
  filename : String
  deriving Repr, DecidableEq

/-- The SchedulerService instance state (scheduler.js lines 9-16).  The
jobs map carries each registered cron job's next invocation time (none for
a job whose cron has no further firing). -/
structure SchedulerState where
  jobs : List (Nat × Option Int)
  scheduledSongs : List (Nat × PreparedData)
  remainingSongsInSchedule : Nat
  nextSongPrepared : Option PreparedData
  deriving Repr, DecidableEq

/-- Outcomes of the external calls a run may make: stream-URL extraction
(services/youtube, none = extraction failed or timed out), announcement
generation (services/dj, none = generation failed) and the random pick
from the local library (none = library empty). -/
structure Env where
  streamResult : Option String
  announceResult : Option Announcement
  offlineMusic : Option OfflineTrack
  deriving Repr, DecidableEq

/-- The socket events the playback core emits, with the payload fields the
verified properties consult (song ids stand for the song objects). -/
inductive Ev where
  | playSong (song : Option Nat) (streamUrl : String) (volume : Nat)
      (autoNext : Bool) (isReconnect : Bool)
  | playAnnouncement (song : Option Nat) (announcementText : String)
      (audioUrl : Option String) (streamUrl : String) (volume : Nat) (autoNext : Bool)
  | nextSongLocked (song : Option Nat) (isOffline : Bool) (downloadFailed : Bool)
      (hasAnnouncement : Bool)
  | queueUpdated
  | recentlyPlayedUpdated
  | songPlayingUpdate (song : Option Nat)
  | songEnded
  | playbackPaused
  | playbackResumed
  | playbackStopped
  | volumeChanged (volume : Nat)
  | playbackStateIdle
  | currentSongReply (song : Option Nat)
  deriving Repr, DecidableEq

/-- True for the two events that start audible playback on every client. -/
def Ev.isPlay : Ev → Bool
  | .playSong _ _ _ _ _ => true
  | .playAnnouncement _ _ _ _ _ _ => true
  | _ => false

def lookupEntry {α : Type} (l : List (Nat × α)) (k : Nat) : Option α :=
  (l.find? (fun p => p.1 == k)).map (·.2)

/-- Map.set: replace in place when the key exists, append otherwise
(JavaScript Map preserves insertion order). -/
def setEntry {α : Type} (l : List (Nat × α)) (k : Nat) (v : α) : List (Nat × α) :=
  if l.any (fun p => p.1 == k) then l.map (fun p => if p.1 == k then (k, v) else p)
  else l ++ [(k, v)]

def delEntry {α : Type} (l : List (Nat × α)) (k : Nat) : List (Nat × α) :=
  l.filter (fun p => p.1 != k)

/-- The offline fallback slot the scheduler caches on an empty queue or a
failed download (scheduler.js lines 236-241, 286-291, 370-375). -/
def offlineSlot : PreparedData :=
  { song := none, streamUrl := none, announcementData := none, isOffline := true }

/-- prepareScheduledSong (scheduler.js lines 219-377): verify the schedule
is active; lock the top-voted song by setting played; resolve the stream
URL (restoring played and falling back offline on failure); generate the
announcement when a dedication exists (failure tolerated); store the
PreparedSlot and broadcast the locked notice.  The volume argument is
unused by the source beyond logging and is omitted. -/
def prepareScheduledSong (env : Env) (db : DB) (st : SchedulerState)
    (scheduleId : Nat) : DB × SchedulerState × List Ev :=
  match findSchedule db scheduleId with
  | none => (db, st, [])
  | some sch =>
    if !sch.is_active then (db, st, [])
    else
      match Song.getTopVoted db.songs db.votes with
      | none =>
        (db,
         { st with scheduledSongs := setEntry st.scheduledSongs scheduleId offlineSlot },
         [Ev.nextSongLocked none true false false])
      | some topSong =>
        let db1 := updateSongRow db topSong.id Song.reserveForSchedule
        match env.streamResult with
        | none =>
          let db2 := updateSongRow db1 topSong.id Song.unreserve
          (db2,
           { st with scheduledSongs := setEntry st.scheduledSongs scheduleId offlineSlot },
           [Ev.nextSongLocked none true true false, Ev.queueUpdated])
        | some url =>
          let ann := if topSong.dedication_message.isSome then env.announceResult
                     else none
          let slot : PreparedData :=
            { song := some topSong.reserveForSchedule, streamUrl := some url,
              announcementData := ann, isOffline := false }
          (db1,
           { st with scheduledSongs := setEntry st.scheduledSongs scheduleId slot },
           [Ev.nextSongLocked (some topSong.id) false false ann.isSome,
            Ev.queueUpdated])


/-- The scheduler proxy-stream endpoint URL for a song id. -/
def proxyStreamUrl (i : Nat) : String :=
  "/api/playback/stream/" ++ toString i

/-- The offline-library streaming URL for a local track. -/
def offlineStreamUrl (m : OfflineTrack) : String :=
  "/api/playback/stream-offline/" ++ m.filename

/-- The served URL of a cached TTS audio file. -/
def ttsAudioUrl (f : String) : String :=
  "/api/playback/tts/audio/" ++ f

/-- The repeated broadcast block of the playback paths: play-announcement
with optional audio URL when an announcement exists, plain play-song
otherwise (scheduler.js lines 530-557 and the analogous route blocks). -/
def playEventsFor (song : Song) (streamUrl : String) (ann : Option Announcement)
    (volume : Nat) (autoNext : Bool) : List Ev :=
  match ann with
  | some a => [Ev.playAnnouncement (some song.id) a.text (a.audioPath.map ttsAudioUrl)
      streamUrl volume autoNext]
  | none => [Ev.playSong (some song.id) streamUrl volume autoNext false]

/-- playPreparedSong (scheduler.js lines 480-571): play the cached slot;
an offline or songless slot plays a random local track (nothing when the
library is empty); otherwise mark the song played and broadcast with the
cached stream URL (proxy fallback), announcement, queue and
recently-played updates. -/
def playPreparedSong (env : Env) (db : DB) (pd : PreparedData) (now : Int)
    (volume : Nat) (autoNext : Bool) : DB × List Ev :=
  match pd.song with
  | none =>
    match env.offlineMusic with
    | none => (db, [])
    | some m => (db, [Ev.playSong none (offlineStreamUrl m) volume autoNext false])
  | some s =>
    if pd.isOffline then
      match env.offlineMusic with
      | none => (db, [])
      | some m => (db, [Ev.playSong none (offlineStreamUrl m) volume autoNext false])
    else
      let db1 := updateSongRow db s.id (fun x => x.markAsPlayed now)
      let finalStreamUrl := pd.streamUrl.getD (proxyStreamUrl s.id)
      (db1, playEventsFor s finalStreamUrl pd.announcementData volume autoNext
        ++ [Ev.queueUpdated, Ev.recentlyPlayedUpdated])

/-- playTopSong (scheduler.js lines 578-686): select the live top-voted
song, fall back to the offline library when the queue is empty, otherwise
mark it played, generate an announcement when a dedication exists (failure
tolerated) and broadcast through the proxy stream URL. -/
def playTopSong (env : Env) (db : DB) (now : Int) (volume : Nat) (autoNext : Bool) :
    DB × List Ev :=
  match Song.getTopVoted db.songs db.votes with
  | none =>
    match env.offlineMusic with
    | none => (db, [])
    | some m => (db, [Ev.playSong none (offlineStreamUrl m) volume autoNext false])
  | some topSong =>
    let db1 := updateSongRow db topSong.id (fun x => x.markAsPlayed now)
    let ann := if topSong.dedication_message.isSome then env.announceResult else none
    (db1, playEventsFor topSong (proxyStreamUrl topSong.id) ann volume autoNext
      ++ [Ev.queueUpdated, Ev.recentlyPlayedUpdated])

/-- prepareNextSongInSchedule (scheduler.js lines 792-849): during a burst,
pre-fetch the next top-voted song into nextSongPrepared without reserving
it; an empty queue stores an offline marker; stream extraction failure
falls back to the proxy URL.  Emits nothing and mutates no database row. -/
def prepareNextSongInSchedule (env : Env) (db : DB) (st : SchedulerState) :
    SchedulerState :=
  if st.remainingSongsInSchedule == 0 then st
  else
    match Song.getTopVoted db.songs db.votes with
    | none =>
      let pd : PreparedData :=
        { song := none, streamUrl := none, announcementData := none, isOffline := true }
      { st with nextSongPrepared := some pd }
    | some top =>
      let ann := if top.dedication_message.isSome then env.announceResult else none
      let streamUrl := match top.youtube_url with
        | some _ => env.streamResult.getD (proxyStreamUrl top.id)
        | none => proxyStreamUrl top.id
      let pd : PreparedData :=
        { song := some top, streamUrl := some streamUrl, announcementData := ann,
          isOffline := false }
      { st with nextSongPrepared := some pd }

/-- The next-run refresh the re-entrancy guard still performs
(scheduler.js lines 403-413): persist the registered job's next invocation
when a job exists, nothing otherwise. -/
def nextRunRefresh (db : DB) (st : SchedulerState) (sid : Nat) : DB :=
  match lookupEntry st.jobs sid with
  | some nextInv => updateScheduleRow db sid (fun x => { x with next_run := nextInv })
  | none => db

/-- executeSchedule (scheduler.js lines 383-472): abort for a missing or
inactive schedule; skip (refreshing only next-run) when last-run is under
ten minutes old; otherwise stamp last-run, set the burst counter, play the
prepared slot (consuming it) or fall back to live selection, start the
burst pre-fetch when songs remain, and persist next-run.  The background
pre-fetch is sequenced after the play step. -/
def executeSchedule (env : Env) (db : DB) (st : SchedulerState) (sid : Nat)
    (volume : Nat) (songCount : Nat) (now : Int) : DB × SchedulerState × List Ev :=
  match findSchedule db sid with
  | none => (db, st, [])
  | some sch =>
    if !sch.is_active then (db, st, [])
    else
      let recent := match sch.last_run with
        | some lr => decide (now - lr < 600000)
        | none => false
      if recent then (nextRunRefresh db st sid, st, [])
      else
        let db1 := updateScheduleRow db sid (fun x => { x with last_run := some now })
        let st1 := { st with remainingSongsInSchedule := songCount - 1 }
        let step :=
          match lookupEntry st1.scheduledSongs sid with
          | some pd =>
            let de := playPreparedSong env db1 pd now volume
              (decide (0 < st1.remainingSongsInSchedule))
            (de.1, { st1 with scheduledSongs := delEntry st1.scheduledSongs sid }, de.2)
          | none =>
            let de := playTopSong env db1 now volume
              (decide (0 < st1.remainingSongsInSchedule))
            (de.1, st1, de.2)
        let st3 := if 0 < step.2.1.remainingSongsInSchedule then
            prepareNextSongInSchedule env step.1 step.2.1
          else step.2.1
        (nextRunRefresh step.1 st3 sid, st3, step.2.2)

/-- playNextSongInSchedule (scheduler.js lines 870-974): consume the burst
pre-fetch if present (offline fallback when it failed, otherwise mark
played and broadcast with the cached data and refill the pre-fetch), else
fall back to live top-song selection and refill. -/
def playNextSongInSchedule (env : Env) (db : DB) (st : SchedulerState) (now : Int)
    (volume : Nat) (autoNext : Bool) : DB × SchedulerState × List Ev :=
  match st.nextSongPrepared with
  | some pd =>
    let st1 := { st with nextSongPrepared := none }
    match pd.song with
    | none =>
      match env.offlineMusic with
      | none => (db, st1, [])
      | some m => (db, st1, [Ev.playSong none (offlineStreamUrl m) volume autoNext false])
    | some s =>
      if pd.isOffline then
        match env.offlineMusic with
        | none => (db, st1, [])
        | some m => (db, st1, [Ev.playSong none (offlineStreamUrl m) volume autoNext false])
      else
        let db1 := updateSongRow db s.id (fun x => x.markAsPlayed now)
        let evs := playEventsFor s (pd.streamUrl.getD (proxyStreamUrl s.id))
          pd.announcementData volume autoNext ++ [Ev.queueUpdated, Ev.recentlyPlayedUpdated]
        let st2 := if 0 < st1.remainingSongsInSchedule then
            prepareNextSongInSchedule env db1 st1
          else st1
        (db1, st2, evs)
  | none =>
    let de := playTopSong env db now volume autoNext
    let st2 := if 0 < st.remainingSongsInSchedule then
        prepareNextSongInSchedule env de.1 st
      else st
    (de.1, st2, de.2)

/-- The reconnect cache entry the socket module keeps (part_012 line 24):
the full play payload plus the time it was stored. -/
structure PlayPayload where
  song : Song
  stream_url : String
  announcement_text : Option String
  announcement_url : Option String
  volume : Nat
  auto_next : Bool
  deriving Repr, DecidableEq

structure CachedPlay where
  payload : PlayPayload
  timestamp : Int
  deriving Repr, DecidableEq

/-- The playbackState object of the socket module (part_012 lines 12-21). -/
structure LocalPlaybackState where
  stage : String
  position : Nat
  song : Option Song
  announcement_text : Option String
  announcement_url : Option String
  stream_url : Option String
  auto_next : Bool
  volume : Nat
  deriving Repr, DecidableEq

/-- The idle reset of the local playback state, keeping only the volume
(part_012 lines 235-244). -/
def idleLocalPlaybackState (volume : Nat) : LocalPlaybackState :=
  { stage := "idle", position := 0, song := none, announcement_text := none,
    announcement_url := none, stream_url := none, auto_next := false, volume := volume }

/-- The module-level mutable state of the socket handlers (part_012):
currentlyPlayingSong, lastPlayedSongData and playbackState. -/
structure SocketGlobals where
  currentlyPlayingSong : Option Song
  lastPlayedSongData : Option CachedPlay
  playbackState : LocalPlaybackState
  deriving Repr, DecidableEq

/-- The song-started handler (part_012 lines 182-202), gated on the sender
being a marked admin socket that is the active admin: record the playing
song, cache the full payload with a timestamp, and broadcast the
song-playing update (never re-broadcasting play-song). -/
def onSongStarted (isAdminSocket isActive : Bool) (data : PlayPayload) (now : Int)
    (g : SocketGlobals) : SocketGlobals × List Ev :=
  if isAdminSocket && isActive then
    let cached : CachedPlay := { payload := data, timestamp := now }
    ({ g with currentlyPlayingSong := some data.song,
              lastPlayedSongData := some cached },
     [Ev.songPlayingUpdate (some data.song.id)])
  else (g, [])

/-- The song-ended-notify handler (part_012 lines 205-248): during a burst,
decrement the counter and chain into playNextSongInSchedule at the
persisted volume; otherwise clear the cached playback data and broadcast
song-ended. -/
def onSongEndedNotify (isAdminSocket isActive : Bool) (env : Env) (db : DB)
    (st : SchedulerState) (g : SocketGlobals) (now : Int) :
    DB × SchedulerState × SocketGlobals × List Ev :=
  if isAdminSocket && isActive then
    if 0 < st.remainingSongsInSchedule then
      let st1 := { st with remainingSongsInSchedule := st.remainingSongsInSchedule - 1 }
      let r := playNextSongInSchedule env db st1 now db.playback.volume
        (decide (0 < st1.remainingSongsInSchedule))
      (r.1, r.2.1, g, r.2.2)
    else
      (db, st,
       { g with currentlyPlayingSong := none, lastPlayedSongData := none,
                playbackState := idleLocalPlaybackState g.playbackState.volume },
       [Ev.songEnded])
  else (db, st, g, [])

/-- The playback-stopped handler (part_012 lines 251-272): clear the cached
playback data and broadcast song-ended. -/
def onPlaybackStopped (isAdminSocket isActive : Bool) (g : SocketGlobals) :
    SocketGlobals × List Ev :=
  if isAdminSocket && isActive then
    ({ g with currentlyPlayingSong := none, lastPlayedSongData := none,
              playbackState := idleLocalPlaybackState g.playbackState.volume },
     [Ev.songEnded])
  else (g, [])

/-- The get-playback-state handler (part_012 lines 136-179): for the active
admin, reply idle unless the cache exists, the persisted row says playing
with a current song id (a null id is falsy in the source guard), and the
cache is at most ten minutes old; then replay the cached play-song with
the reconnect flag. -/
def onGetPlaybackState (isAdminSocket isActive : Bool) (g : SocketGlobals)
    (pb : PlaybackStateRec) (now : Int) : List Ev :=
  if isAdminSocket && isActive then
    match g.lastPlayedSongData with
    | none => [Ev.playbackStateIdle]
    | some d =>
      if !pb.is_playing || pb.current_song_id.isNone then [Ev.playbackStateIdle]
      else if 600000 < now - d.timestamp then [Ev.playbackStateIdle]
      else [Ev.playSong (some d.payload.song.id) d.payload.stream_url
        d.payload.volume d.payload.auto_next true]
  else []

/-- getLockedSongs (scheduler.js lines 723-752), reduced to the schedule
ids it reports: entries of the scheduledSongs map, in insertion order,
whose schedule still exists with a non-null next-run. -/
def getLockedSongs (db : DB) (st : SchedulerState) : List Nat :=
  (st.scheduledSongs.filter (fun p =>
    match findSchedule db p.1 with
    | none => false
    | some sch => sch.next_run.isSome)).map (·.1)

/-- The top-voted tail of POST /next (part_014 lines 476-606): live top
selection, offline fallback (404 when the library is empty too), playback
row update, reservation via markAsPlayed, announcement, pre-extracted
stream URL (proxy on failure), manual broadcast with auto-next false. -/
def nextRouteTopVoted (env : Env) (db : DB) (st : SchedulerState) (now : Int) :
    DB × SchedulerState × List Ev × Nat :=
  match Song.getTopVoted db.songs db.votes with
  | none =>
    match env.offlineMusic with
    | none => (db, st, [], 404)
    | some m =>
      let pb2 := { db.playback with current_song_id := none }
      let pb1 := { pb2 with is_playing := true, position := 0 }
      let db1 := { db with playback := pb1 }
      (db1, st, [Ev.playSong none (offlineStreamUrl m) db1.playback.volume false false], 200)
  | some top =>
    let pb2 := { db.playback with current_song_id := some top.id }
    let pb1 := { pb2 with is_playing := true, position := 0 }
    let db1 := { db with playback := pb1 }
    let db2 := updateSongRow db1 top.id (fun x => x.markAsPlayed now)
    let ann := if top.dedication_message.isSome then env.announceResult else none
    let streamUrl := match top.youtube_url with
      | some _ => env.streamResult.getD (proxyStreamUrl top.id)
      | none => proxyStreamUrl top.id
    (db2, st, playEventsFor top streamUrl ann db.playback.volume false
      ++ [Ev.queueUpdated, Ev.recentlyPlayedUpdated], 200)

/-- The offline-fallback locked branch of POST /next (part_014 lines
379-427): 404 when the library is empty (nothing consumed), otherwise play
a random local track with auto-next false, delete the slot and stamp the
schedule's last-run. -/
def nextRouteLockedOffline (env : Env) (db : DB) (st : SchedulerState)
    (sid : Nat) (now : Int) : DB × SchedulerState × List Ev × Nat :=
  match env.offlineMusic with
  | none => (db, st, [], 404)
  | some m =>
    let pb1 := { db.playback with current_song_id := none, is_playing := true }
    let db1 := { db with playback := pb1 }
    let st1 := { st with scheduledSongs := delEntry st.scheduledSongs sid }
    let db2 := updateScheduleRow db1 sid (fun x => { x with last_run := some now })
    (db2, st1, [Ev.playSong none (offlineStreamUrl m) db1.playback.volume false false], 200)

/-- The locked-song branch of POST /next (part_014 lines 429-472): play the
prepared song with auto-next false (the announcement payload here carries
no audio URL in the source), delete the slot and stamp last-run. -/
def nextRouteLockedSong (db : DB) (st : SchedulerState) (sid : Nat)
    (pd : PreparedData) (s : Song) (now : Int) : DB × SchedulerState × List Ev × Nat :=
  let pb1 := { db.playback with current_song_id := some s.id, is_playing := true }
  let db1 := { db with playback := pb1 }
  let evs := (match pd.announcementData with
    | some a => [Ev.playAnnouncement (some s.id) a.text none
        (pd.streamUrl.getD (proxyStreamUrl s.id)) db1.playback.volume false]
    | none => [Ev.playSong (some s.id) (pd.streamUrl.getD (proxyStreamUrl s.id))
        db1.playback.volume false false]) ++ [Ev.queueUpdated]
  let st1 := { st with scheduledSongs := delEntry st.scheduledSongs sid }
  let db2 := updateScheduleRow db1 sid (fun x => { x with last_run := some now })
  (db2, st1, evs, 200)

/-- POST /next (part_014 lines 352-614): reset the burst counter, prefer
the first locked slot reported by getLockedSongs (falling through to live
selection when its cached entry is absent, mirroring the source's guard),
and otherwise select the live top-voted song. -/
def nextRoute (env : Env) (db : DB) (st : SchedulerState) (now : Int) :
    DB × SchedulerState × List Ev × Nat :=
  match getLockedSongs db
      { st with remainingSongsInSchedule := 0, nextSongPrepared := none } with
  | [] => nextRouteTopVoted env db
      { st with remainingSongsInSchedule := 0, nextSongPrepared := none } now
  | sid :: _ =>
    match lookupEntry st.scheduledSongs sid with
    | none => nextRouteTopVoted env db
        { st with remainingSongsInSchedule := 0, nextSongPrepared := none } now
    | some pd =>
      match pd.song with
      | none => nextRouteLockedOffline env db
          { st with remainingSongsInSchedule := 0, nextSongPrepared := none } sid now
      | some s =>
        if pd.isOffline then nextRouteLockedOffline env db
            { st with remainingSongsInSchedule := 0, nextSongPrepared := none } sid now
        else nextRouteLockedSong db
            { st with remainingSongsInSchedule := 0, nextSongPrepared := none }
            sid pd s now

/-- POST /pause (part_014 lines 617-639): clear the playing flag of the
singleton playback row and broadcast playback-paused. -/
def pauseRoute (db : DB) (st : SchedulerState) : DB × SchedulerState × List Ev :=
  ({ db with playback := { db.playback with is_playing := false } }, st,
   [Ev.playbackPaused])

/-- POST /resume (part_014 lines 642-664): set the playing flag of the
singleton playback row and broadcast playback-resumed. -/
def resumeRoute (db : DB) (st : SchedulerState) : DB × SchedulerState × List Ev :=
  ({ db with playback := { db.playback with is_playing := true } }, st,
   [Ev.playbackResumed])

/-- Path resolution over root-relative component lists: double-dot pops a
component, single-dot and empty components vanish (path.resolve). -/
def resolvePath (comps : List String) : List String :=
  comps.foldl (fun acc c =>
    if c == ".." then acc.dropLast
    else if c == "." || c == "" then acc
    else acc ++ [c]) []

/-- The string path.resolve renders for a root-relative path, as its
character list: a leading slash and slash-separated components. -/
def renderPath (comps : List String) : List Char :=
  '/' :: (List.intersperse ['/'] (comps.map String.toList)).flatten

/-- JavaScript String.prototype.startsWith over rendered paths. -/
def strStartsWith (s pre : List Char) : Bool :=
  decide (pre <+: s)

/-- The security check of GET /stream-offline (part_014 lines 815-825 and
routes/playback.js lines 389-399): join the decoded filename onto the
library directory, resolve both, and accept when the resolved path starts
with the resolved directory as a string. -/
def streamOfflineCheck (dir : List String) (fileComps : List String) : Bool :=
  strStartsWith (renderPath (resolvePath (dir ++ fileComps)))
    (renderPath (resolvePath dir))

/-- Whether the resolved target actually lies within the library directory:
the directory's components are a prefix of the resolved path's components. -/
def insideLibrary (dir : List String) (fileComps : List String) : Bool :=
  (resolvePath (dir ++ fileComps)).take (resolvePath dir).length == resolvePath dir

/-- A week-clock instant (day of week 0-6, hour, minute), determining the
firing times of crons whose day-of-month and month fields are wildcards. -/
structure WeekTime where
  dow : Nat
  hour : Nat
  minute : Nat
  deriving Repr, DecidableEq

/-- A minute, hour, day-of-month or month field of the five-field cron
dialect as the source consumes it: a wildcard or a parsed number. -/
inductive CronNumField where
  | star
  | num (n : Nat)
  deriving Repr, DecidableEq

/-- A day-of-week field: wildcard, a single number, or a comma list
(scheduler.js lines 166-173 split on the comma). -/
inductive CronDowField where
  | star
  | num (n : Nat)
  | nums (ns : List Nat)
  deriving Repr, DecidableEq

/-- A five-field cron expression after the source's split on blanks; the
lexing of each field (wildcard test, parseInt, comma split) is folded into
the field constructors. -/
structure CronExpr where
  minute : CronNumField
  hour : CronNumField
  day : CronNumField
  month : CronNumField
  dayOfWeek : CronDowField
  deriving Repr, DecidableEq

/-- The node-schedule RecurrenceRule fields createPreDownloadJob fills
(scheduler.js lines 134-173). -/
structure RecRule where
  hour : Option Nat
  minute : Option Nat
  date : Option Nat
  month : Option Nat
  dayOfWeek : Option (List Nat)
  deriving Repr, DecidableEq

/-- createPreDownloadJob (scheduler.js lines 127-191): build the pre-fetch
recurrence rule by subtracting five minutes from the cron minute,
borrowing one hour when the minute underflows ((hour - 1 + 24) mod 24);
wildcard minutes yield no job; day, month (zero-based) and day-of-week are
copied unshifted. -/
def createPreDownloadJob (c : CronExpr) : Option RecRule :=
  let hourRule : Option Nat := match c.hour with
    | .star => none
    | .num h => some h
  match c.minute with
  | .star => none
  | .num m0 =>
    let m : Int := (m0 : Int) - 5
    let mh : Nat × Option Nat :=
      if m < 0 then ((m + 60).toNat, hourRule.map (fun h => (h + 24 - 1) % 24))
      else (m.toNat, hourRule)
    some { hour := mh.2, minute := some mh.1,
           date := match c.day with | .star => none | .num d => some d,
           month := match c.month with | .star => none | .num mo => some (mo - 1),
           dayOfWeek := match c.dayOfWeek with
             | .star => none
             | .num d => some [d]
             | .nums ds => some ds }

def numFieldMatches : CronNumField → Nat → Bool
  | .star, _ => true
  | .num n, v => n == v

def dowFieldMatches : CronDowField → Nat → Bool
  | .star, _ => true
  | .num n, v => n == v
  | .nums ns, v => ns.contains v

/-- When a cron expression with wildcard day-of-month and month fields
fires at a week-clock instant. -/
def cronMatchesWeek (c : CronExpr) (t : WeekTime) : Bool :=
  numFieldMatches c.minute t.minute && numFieldMatches c.hour t.hour &&
    dowFieldMatches c.dayOfWeek t.dow

/-- When a recurrence rule with empty date and month fields fires at a
week-clock instant. -/
def ruleMatchesWeek (r : RecRule) (t : WeekTime) : Bool :=
  (match r.minute with | some m => t.minute == m | none => true) &&
  (match r.hour with | some h => t.hour == h | none => true) &&
  (match r.dayOfWeek with | some l => l.contains t.dow | none => true)

/-- Adding minutes on the week clock. -/
def addMinutesWeek (t : WeekTime) (k : Nat) : WeekTime :=
  let total := (((t.dow % 7) * 24 + t.hour % 24) * 60 + t.minute % 60 + k) % 10080
  { dow := total / 1440, hour := (total % 1440) / 60, minute := total % 60 }

/-- Fixtures for the closed witness and counterexample theorems. -/
def songA : Song :=
  { id := 1, starred := false, played := false, played_at := none, added_at := 0,
    youtube_url := some "https://youtu.be/aaaa", dedication_message := none }

def songB : Song :=
  { id := 2, starred := true, played := false, played_at := none, added_at := 5,
    youtube_url := some "https://youtu.be/bbbb", dedication_message := none }

def pbIdle : PlaybackStateRec :=
  { current_song_id := none, is_playing := false, volume := 70, position := 0 }

def schedA : Schedule :=
  { id := 1, cron_expression := "0 17 * * 1-5", volume := 70, song_count := 1,
    is_active := true, last_run := none, next_run := some 1000000 }

def schedB : Schedule :=
  { id := 1, cron_expression := "0 17 * * 1-5", volume := 70, song_count := 1,
    is_active := true, last_run := some 0, next_run := some 1000000 }

def dbA : DB :=
  { songs := [songA], votes := [], schedules := [schedA], playback := pbIdle }

def dbB : DB :=
  { songs := [songA], votes := [], schedules := [schedB], playback := pbIdle }

def stA : SchedulerState :=
  { jobs := [(1, some 1000000)], scheduledSongs := [],
    remainingSongsInSchedule := 0, nextSongPrepared := none }

/-- Scheduler state holding an offline-fallback locked slot for schedule 1. -/
def stOff : SchedulerState :=
  { jobs := [(1, some 1000000)], scheduledSongs := [(1, offlineSlot)],
    remainingSongsInSchedule := 0, nextSongPrepared := none }

/-- A ready locked slot for schedule 1 carrying song B. -/
def slotB : PreparedData :=
  { song := some songB.reserveForSchedule, streamUrl := some "https://cdn.example/b.m4a",
    announcementData := none, isOffline := false }

def stLocked : SchedulerState :=
  { jobs := [(1, some 1000000)], scheduledSongs := [(1, slotB)],
    remainingSongsInSchedule := 0, nextSongPrepared := none }

def envFail : Env :=
  { streamResult := none, announceResult := none, offlineMusic := none }

def envOk : Env :=
  { streamResult := some "https://cdn.example/a.m4a", announceResult := none,
    offlineMusic := some { title := "Track", filename := "track.mp3" } }

def payloadC : PlayPayload :=
  { song := songB, stream_url := "https://cdn.example/b.m4a",
    announcement_text := none, announcement_url := none, volume := 70,
    auto_next := false }

def cachedC : CachedPlay :=
  { payload := payloadC, timestamp := 0 }

def gC : SocketGlobals :=
  { currentlyPlayingSong := some songB, lastPlayedSongData := some cachedC,
    playbackState := idleLocalPlaybackState 70 }

/-- A persisted playback row claiming playing with no current song id
(reachable: the offline branch of POST /next stores exactly this). -/
def pbPlayingNoSong : PlaybackStateRec :=
  { current_song_id := none, is_playing := true, volume := 70, position := 0 }

/-- The song-played-at accessor mirroring songPlayed. -/
def songPlayedAt (db : DB) (i : Nat) : Option (Option Int) :=
  (db.songs.find? (fun s => s.id == i)).map (·.played_at)

/-- The library directory of the offline-music endpoints, as resolved
components (src/data/offline-music under the app root). -/
def offlineMusicDir : List String :=
  ["app", "src", "data", "offline-music"]

/-- True when every play event in the list carries auto-next false. -/
def allPlaysManual (evs : List Ev) : Bool :=
  evs.all (fun e => match e with
    | .playSong _ _ _ a _ => !a
    | .playAnnouncement _ _ _ _ _ a => !a
    | _ => true)

/-- The cron 0 0 * * 1: Mondays at midnight. -/
def cronMon : CronExpr :=
  { minute := .num 0, hour := .num 0, day := .star, month := .star,
    dayOfWeek := .num 1 }

/-- The rule the source builds for the cron 0 0 * * 1: hour borrowed to
23, minute 55, day-of-week copied unshifted. -/
def preRuleMon : RecRule :=
  { hour := some 23, minute := some 55, date := none, month := none,
    dayOfWeek := some [1] }

/-- The three-key lexicographic reading of the strict order. -/
theorem songBefore_iff (votes : List Nat) (a b : Song) :
    songBefore votes a b = true ↔
      (a.starred = true ∧ b.starred = false) ∨
      (a.starred = b.starred ∧ voteCount votes b < voteCount votes a) ∨
      (a.starred = b.starred ∧ voteCount votes a = voteCount votes b ∧
        a.added_at < b.added_at) := by
  cases ha : a.starred <;> cases hb : b.starred <;>
    by_cases hv : voteCount votes a = voteCount votes b <;>
    simp [songBefore, ha, hb, hv]

theorem songBefore_irrefl (votes : List Nat) (a : Song) :
    songBefore votes a a = false := by
  simp [songBefore]

theorem songBefore_trans (votes : List Nat) (a b c : Song)
    (hab : songBefore votes a b = true) (hbc : songBefore votes b c = true) :
    songBefore votes a c = true := by
  rw [songBefore_iff] at *
  rcases hab with ⟨h1, h2⟩ | ⟨h1, h2⟩ | ⟨h1, h2, h3⟩ <;>
    rcases hbc with ⟨g1, g2⟩ | ⟨g1, g2⟩ | ⟨g1, g2, g3⟩ <;>
    simp_all <;> omega

theorem songBefore_asymm (votes : List Nat) (a b : Song)
    (hab : songBefore votes a b = true) : songBefore votes b a = false := by
  cases h : songBefore votes b a
  · rfl
  · rw [songBefore_iff] at *
    rcases hab with ⟨h1, h2⟩ | ⟨h1, h2⟩ | ⟨h1, h2, h3⟩ <;>
      rcases h with ⟨g1, g2⟩ | ⟨g1, g2⟩ | ⟨g1, g2, g3⟩ <;>
      simp_all <;> omega

/-- Two songs neither of which sorts strictly before the other agree on all
three sort keys. -/
theorem songBefore_tie (votes : List Nat) (a b : Song)
    (hab : songBefore votes a b = false) (hba : songBefore votes b a = false) :
    a.starred = b.starred ∧ voteCount votes a = voteCount votes b ∧
      a.added_at = b.added_at := by
  have h1 : ¬ (songBefore votes a b = true) := by simp [hab]
  have h2 : ¬ (songBefore votes b a = true) := by simp [hba]
  rw [songBefore_iff] at h1 h2
  push_neg at h1 h2
  cases ha : a.starred <;> cases hb : b.starred <;> simp_all <;> omega

theorem minFold_mem (votes : List Nat) (l : List Song) (b : Song) :
    l.foldl (chooseBetter votes) b = b ∨ l.foldl (chooseBetter votes) b ∈ l := by
  induction l generalizing b with
  | nil => simp
  | cons s t ih =>
    simp only [List.foldl_cons]
    rcases ih (chooseBetter votes b s) with h | h
    · rw [h]
      unfold chooseBetter
      split
      · right; simp
      · left; rfl
    · right; simp [h]

/-- The fold result either is the seed or sorts strictly before it. -/
theorem minFold_beats (votes : List Nat) (l : List Song) (b : Song) :
    l.foldl (chooseBetter votes) b = b ∨
      songBefore votes (l.foldl (chooseBetter votes) b) b = true := by
  induction l generalizing b with
  | nil => simp
  | cons s t ih =>
    simp only [List.foldl_cons]
    cases hc : songBefore votes s b with
    | false =>
      have hcb : chooseBetter votes b s = b := by unfold chooseBetter; simp [hc]
      rw [hcb]
      exact ih b
    | true =>
      have hcb : chooseBetter votes b s = s := by unfold chooseBetter; simp [hc]
      rw [hcb]
      rcases ih s with h | h
      · right; rw [h]; exact hc
      · right; exact songBefore_trans votes _ s b h hc

/-- No element of the folded list, and not the seed, sorts strictly before
the fold result. -/
theorem minFold_not_before (votes : List Nat) (l : List Song) (b : Song) :
    songBefore votes b (l.foldl (chooseBetter votes) b) = false ∧
      ∀ x ∈ l, songBefore votes x (l.foldl (chooseBetter votes) b) = false := by
  induction l generalizing b with
  | nil =>
    exact ⟨songBefore_irrefl votes b, by simp⟩
  | cons s t ih =>
    simp only [List.foldl_cons]
    have hnc : ∀ (c : Song), ∀ y : Song, songBefore votes y c = false →
        songBefore votes y (t.foldl (chooseBetter votes) c) = false := by
      intro c y hy
      cases hmy : songBefore votes y (t.foldl (chooseBetter votes) c) with
      | false => rfl
      | true =>
        rcases minFold_beats votes t c with h | h
        · rw [h] at hmy; rw [hmy] at hy; exact hy
        · have := songBefore_trans votes y _ c hmy h
          rw [this] at hy; exact hy
    cases hsb : songBefore votes s b with
    | false =>
      have hcb : chooseBetter votes b s = b := by unfold chooseBetter; simp [hsb]
      rw [hcb]
      obtain ⟨ihseed, ihall⟩ := ih b
      refine ⟨ihseed, ?_⟩
      intro x hx
      rcases List.mem_cons.mp hx with hx | hx
      · subst hx
        exact hnc b x hsb
      · exact ihall x hx
    | true =>
      have hcb : chooseBetter votes b s = s := by unfold chooseBetter; simp [hsb]
      rw [hcb]
      obtain ⟨ihseed, ihall⟩ := ih s
      refine ⟨?_, ?_⟩
      · exact hnc s b (songBefore_asymm votes s b hsb)
      · intro x hx
        rcases List.mem_cons.mp hx with hx | hx
        · subst hx; exact ihseed
        · exact ihall x hx

/-- C6: Song.getTopVoted returns none exactly when no unplayed song exists;
otherwise it returns an unplayed song of the queue that no other unplayed
song sorts strictly before under (starred DESC, vote count DESC, added-at
ASC); and when no two unplayed songs tie on all three keys, the returned
song sorts strictly before every other unplayed song, so the selection is
the unique maximum. -/
theorem getTopVoted_correct (songs : List Song) (votes : List Nat) :
    (Song.getTopVoted songs votes = none ↔ ∀ s ∈ songs, s.played = true)
    ∧ (∀ m, Song.getTopVoted songs votes = some m →
        m ∈ songs ∧ m.played = false
        ∧ (∀ x ∈ songs, x.played = false → songBefore votes x m = false)
        ∧ ((∀ a ∈ songs, a.played = false → ∀ b ∈ songs, b.played = false →
              a = b ∨ songBefore votes a b = true ∨ songBefore votes b a = true) →
            ∀ x ∈ songs, x.played = false → x ≠ m → songBefore votes m x = true)) := by
  have hfilter : ∀ x : Song, x ∈ songs.filter (fun s => !s.played) ↔
      x ∈ songs ∧ x.played = false := by
    intro x
    simp [List.mem_filter]
  constructor
  · unfold Song.getTopVoted
    rcases hf : songs.filter (fun s => !s.played) with _ | ⟨s, t⟩
    · rw [hf]
      constructor
      · intro _ s hs
        cases hp : s.played with
        | true => rfl
        | false =>
          have : s ∈ songs.filter (fun s => !s.played) := by
            rw [hfilter]; exact ⟨hs, hp⟩
          rw [hf] at this
          simp at this
      · intro _; rfl
    · rw [hf]
      constructor
      · intro hcontra; simp at hcontra
      · intro hall
        exfalso
        have hs : s ∈ songs.filter (fun s => !s.played) := by rw [hf]; simp
        rw [hfilter] at hs
        have := hall s hs.1
        rw [this] at hs
        simp at hs
  · intro m hm
    unfold Song.getTopVoted at hm
    rcases hf : songs.filter (fun s => !s.played) with _ | ⟨s, t⟩
    · rw [hf] at hm; simp at hm
    · rw [hf] at hm
      rw [Option.some_inj] at hm
      have hmem : m ∈ songs.filter (fun s => !s.played) := by
        rw [hf]
        rcases minFold_mem votes t s with h | h
        · rw [← hm, h]; simp
        · rw [← hm]; simp [h]
      rw [hfilter] at hmem
      obtain ⟨hnb_seed, hnb_all⟩ := minFold_not_before votes t s
      have hmax : ∀ x ∈ songs, x.played = false → songBefore votes x m = false := by
        intro x hx hpx
        have : x ∈ songs.filter (fun s => !s.played) := by rw [hfilter]; exact ⟨hx, hpx⟩
        rw [hf] at this
        rcases List.mem_cons.mp this with h | h
        · subst h; rw [← hm]; exact hnb_seed
        · rw [← hm]; exact hnb_all x h
      refine ⟨hmem.1, hmem.2, hmax, ?_⟩
      intro hnoties x hx hpx hne
      rcases (hnoties x hx hpx m hmem.1 hmem.2) with h | h | h
      · exact absurd h hne
      · exact absurd h (by rw [hmax x hx hpx]; simp)
      · exact h


theorem find?_map_comm {α : Type} (l : List α) (g : α → α) (p : α → Bool)
    (hp : ∀ s, p (g s) = p s) : (l.map g).find? p = (l.find? p).map g := by
  induction l with
  | nil => rfl
  | cons a t ih =>
    simp only [List.map_cons]
    cases h : p a with
    | true =>
      rw [List.find?_cons_of_pos _ (by rw [hp a]; exact h),
        List.find?_cons_of_pos _ h]
      rfl
    | false =>
      rw [List.find?_cons_of_neg _ (by rw [hp a]; simp [h]),
        List.find?_cons_of_neg _ (by simp [h])]
      exact ih

theorem songPlayed_update (db : DB) (i : Nat) (f : Song → Song) (j : Nat)
    (hid : ∀ s, (f s).id = s.id) :
    songPlayed (updateSongRow db i f) j
      = (db.songs.find? (fun s => s.id == j)).map
          (fun s => (if s.id == i then f s else s).played) := by
  unfold songPlayed updateSongRow
  simp only
  rw [find?_map_comm _ _ _ (fun s => by cases h : s.id == i <;> simp [h, hid])]
  rw [Option.map_map]
  rfl

theorem find?_of_mem_nodup (l : List Song) (t : Song)
    (h : (l.map (·.id)).Nodup) (ht : t ∈ l) :
    l.find? (fun s => s.id == t.id) = some t := by
  induction l with
  | nil => simp at ht
  | cons a l' ih =>
    simp only [List.map_cons, List.nodup_cons] at h
    rcases List.mem_cons.mp ht with rfl | hmem
    · rw [List.find?_cons_of_pos _ (by simp)]
    · cases hcc : a.id == t.id with
      | true =>
        exfalso
        apply h.1
        rw [List.mem_map]
        exact ⟨t, hmem, by simpa using (Nat.beq_eq_true_eq _ _).mp hcc |>.symm⟩
      | false =>
        rw [List.find?_cons_of_neg _ (by simp [hcc])]
        exact ih h.2 hmem

theorem find?_setEntry_self {α : Type} (l : List (Nat × α)) (k : Nat) (v : α) :
    (setEntry l k v).find? (fun p => p.1 == k) = some (k, v) := by
  induction l with
  | nil => simp [setEntry]
  | cons a t ih =>
    cases ha : a.1 == k with
    | true =>
      simp only [setEntry, List.any_cons, ha, Bool.true_or, if_true, List.map_cons]
      rw [List.find?_cons_of_pos _ (by simp)]
    | false =>
      cases hany : t.any (fun p => p.1 == k) with
      | true =>
        simp only [setEntry, List.any_cons, ha, Bool.false_or, hany, if_true,
          List.map_cons]
        rw [if_neg (by simp [ha]), List.find?_cons_of_neg _ (by simp [ha])]
        have := ih
        simp only [setEntry, hany, if_true] at this
        exact this
      | false =>
        simp only [setEntry, List.any_cons, ha, Bool.false_or, hany,
          Bool.false_eq_true, if_false, List.cons_append]
        rw [List.find?_cons_of_neg _ (by simp [ha])]
        have := ih
        simp only [setEntry, hany, Bool.false_eq_true, if_false] at this
        exact this

theorem lookupEntry_setEntry_self {α : Type} (l : List (Nat × α)) (k : Nat) (v : α) :
    lookupEntry (setEntry l k v) k = some v := by
  unfold lookupEntry
  rw [find?_setEntry_self]
  rfl


theorem getTopVoted_mem_unplayed (songs : List Song) (votes : List Nat) (m : Song)
    (hm : Song.getTopVoted songs votes = some m) : m ∈ songs ∧ m.played = false := by
  unfold Song.getTopVoted at hm
  rcases hf : songs.filter (fun s => !s.played) with _ | ⟨s, t⟩
  · rw [hf] at hm; simp at hm
  · rw [hf] at hm; rw [Option.some_inj] at hm
    have hmem : m ∈ songs.filter (fun s => !s.played) := by
      rw [hf]
      rcases minFold_mem votes t s with h | h
      · rw [← hm, h]; simp
      · rw [← hm]; simp [h]
    simpa [List.mem_filter] using hmem

/-- The double update of the stream-failure path (reserve then restore)
leaves every played flag as it was. -/
theorem songPlayed_reserve_unreserve (db : DB) (t : Song)
    (hids : (db.songs.map (·.id)).Nodup) (htmem : t ∈ db.songs)
    (htunpl : t.played = false) (i : Nat) :
    songPlayed (updateSongRow (updateSongRow db t.id Song.reserveForSchedule)
        t.id Song.unreserve) i = songPlayed db i := by
  have hcomp : (updateSongRow (updateSongRow db t.id Song.reserveForSchedule)
      t.id Song.unreserve).songs
      = db.songs.map (fun s => if s.id == t.id then Song.unreserve
          (Song.reserveForSchedule s) else s) := by
    unfold updateSongRow
    simp only [List.map_map]
    apply List.map_congr_left
    intro s _
    cases h : s.id == t.id <;> simp [Function.comp, h, Song.reserveForSchedule]
  unfold songPlayed
  rw [hcomp, find?_map_comm _ _ _
    (fun s => by cases h : s.id == t.id <;>
      simp [h, Song.unreserve, Song.reserveForSchedule])]
  cases hfind : db.songs.find? (fun s => s.id == i) with
  | none => rfl
  | some s0 =>
    simp only [Option.map_map, Option.map_some]
    cases h0 : s0.id == t.id with
    | false =>
      have hne : ¬ (s0.id = t.id) := by simpa using h0
      simp [Function.comp, hne]
    | true =>
      have hi : s0.id = i := by simpa using List.find?_some hfind
      have ht0 : s0.id = t.id := by simpa using h0
      have : db.songs.find? (fun s => s.id == t.id) = some t :=
        find?_of_mem_nodup db.songs t hids htmem
      rw [← ht0, hi] at this
      rw [hfind] at this
      rw [Option.some_inj] at this
      subst this
      simp [Function.comp, h0, Song.unreserve, Song.reserveForSchedule, htunpl]

/-- C1: every terminating run of prepareScheduledSong leaves a consistent
state.  First conjunct: a song whose played flag is newly true is
referenced by the streamable PreparedSlot the run stored, so no run ends
with a reserved song and no slot for it.  Second conjunct: when the
stream-URL resolution of the locked song fails after the reservation, the
played flag of every song is restored and an offline-fallback slot is
stored for the schedule. -/
theorem prepareScheduledSong_consistent
    (env : Env) (db : DB) (st : SchedulerState) (sid : Nat)
    (hids : (db.songs.map (·.id)).Nodup) :
    (∀ i, songPlayed (prepareScheduledSong env db st sid).1 i = some true →
       songPlayed db i = some true ∨
       ∃ s url ann,
         lookupEntry (prepareScheduledSong env db st sid).2.1.scheduledSongs sid =
           some { song := some s, streamUrl := some url,
                  announcementData := ann, isOffline := false } ∧
         s.id = i ∧ s.played = true)
    ∧ (∀ sch t, findSchedule db sid = some sch → sch.is_active = true →
        Song.getTopVoted db.songs db.votes = some t → env.streamResult = none →
        lookupEntry (prepareScheduledSong env db st sid).2.1.scheduledSongs sid =
            some offlineSlot ∧
        ∀ i, songPlayed (prepareScheduledSong env db st sid).1 i = songPlayed db i) := by
  cases hsch : findSchedule db sid with
  | none =>
    constructor
    · intro i h
      left
      simpa [prepareScheduledSong, hsch] using h
    · intro sch t hf
      exact absurd hf (by simp)
  | some sch =>
    cases hact : sch.is_active with
    | false =>
      constructor
      · intro i h
        left
        simpa [prepareScheduledSong, hsch, hact] using h
      · intro sch' t hf hact'
        rw [Option.some_inj] at hf
        subst hf
        rw [hact] at hact'
        exact absurd hact' (by simp)
    | true =>
      cases hTop : Song.getTopVoted db.songs db.votes with
      | none =>
        constructor
        · intro i h
          left
          simpa [prepareScheduledSong, hsch, hact, hTop] using h
        · intro sch' t _ _ ht
          exact absurd ht (by simp)
      | some t =>
        obtain ⟨htmem, htunpl⟩ := getTopVoted_mem_unplayed db.songs db.votes t hTop
        cases hstream : env.streamResult with
        | none =>
          have hrestore := songPlayed_reserve_unreserve db t hids htmem htunpl
          constructor
          · intro i h
            left
            have hred : (prepareScheduledSong env db st sid).1
                = updateSongRow (updateSongRow db t.id Song.reserveForSchedule)
                    t.id Song.unreserve := by
              simp [prepareScheduledSong, hsch, hact, hTop, hstream]
            rw [hred, hrestore i] at h
            exact h
          · intro sch' t' _ _ ht' hs'
            constructor
            · simp [prepareScheduledSong, hsch, hact, hTop, hstream,
                lookupEntry_setEntry_self]
            · intro i
              have hred : (prepareScheduledSong env db st sid).1
                  = updateSongRow (updateSongRow db t.id Song.reserveForSchedule)
                      t.id Song.unreserve := by
                simp [prepareScheduledSong, hsch, hact, hTop, hstream]
              rw [hred, hrestore i]
        | some url =>
          constructor
          · intro i h
            have hred : (prepareScheduledSong env db st sid).1
                = updateSongRow db t.id Song.reserveForSchedule := by
              simp [prepareScheduledSong, hsch, hact, hTop, hstream]
            rw [hred] at h
            rw [songPlayed_update db t.id Song.reserveForSchedule i (fun s => rfl)] at h
            cases hfind : db.songs.find? (fun s => s.id == i) with
            | none => rw [hfind] at h; simp at h
            | some s0 =>
              rw [hfind] at h
              simp only [Option.map_some', Option.some.injEq] at h
              cases h0 : s0.id == t.id with
              | false =>
                left
                rw [h0] at h
                simp only [Bool.false_eq_true, if_false] at h
                unfold songPlayed
                rw [hfind]
                simp [h]
              | true =>
                right
                refine ⟨t.reserveForSchedule, url,
                  (if t.dedication_message.isSome then env.announceResult else none), ?_, ?_, ?_⟩
                · simp [prepareScheduledSong, hsch, hact, hTop, hstream,
                    lookupEntry_setEntry_self]
                · have hi : s0.id = i := by simpa using List.find?_some hfind
                  have ht0 : s0.id = t.id := by simpa using h0
                  simp [Song.reserveForSchedule, ← hi, ht0]
                · simp [Song.reserveForSchedule]
          · intro sch' t' _ _ _ hs'
            exact absurd hs' (by simp)



/-- C1 witness: the guard hypotheses hold at a concrete one-song queue with
an active schedule whose stream extraction fails; the restore conjunct
applies there. -/
theorem prepareScheduledSong_consistent_witness :
    lookupEntry (prepareScheduledSong envFail dbA stA 1).2.1.scheduledSongs 1
        = some offlineSlot ∧
    songPlayed (prepareScheduledSong envFail dbA stA 1).1 1 = songPlayed dbA 1 := by
  have h := (prepareScheduledSong_consistent envFail dbA stA 1 (by decide)).2
      schedA songA (by decide) (by decide) (by decide) (by decide)
  exact ⟨h.1, h.2 1⟩

/-- C2 counterexample: after a successful pre-fetch run on a queue whose
top song has never been played, the reserved song has played true and
played-at still null, violating the invariant during the reservation
window. -/
theorem reservation_window_invariant_counterexample :
    songPlayed (prepareScheduledSong envOk dbA stA 1).1 1 = some true
    ∧ songPlayedAt (prepareScheduledSong envOk dbA stA 1).1 1 = some none := by
  decide

/-- C2 amended: markAsPlayed stamps played-at, so the invariant holds after
it; restoreToQueue clears both; but the pre-fetch reservation sets played
without touching played-at, so the invariant fails during the reservation
window for a song whose played-at is still null. -/
theorem played_at_invariant_amended (s : Song) (now : Int) :
    ((s.markAsPlayed now).played = true ∧ (s.markAsPlayed now).played_at = some now)
    ∧ ((s.restoreToQueue).played = false ∧ (s.restoreToQueue).played_at = none)
    ∧ ((s.reserveForSchedule).played = true
        ∧ (s.reserveForSchedule).played_at = s.played_at) := by
  simp [Song.markAsPlayed, Song.restoreToQueue, Song.reserveForSchedule]

/-- C10: pause and resume rewrite only the playing flag of the singleton
playback row and emit exactly the paired event; songs, votes, schedules,
the other playback fields and the scheduler state are untouched. -/
theorem pause_resume_frame (db : DB) (st : SchedulerState) :
    pauseRoute db st
      = ({ db with playback := { db.playback with is_playing := false } }, st,
         [Ev.playbackPaused])
    ∧ resumeRoute db st
      = ({ db with playback := { db.playback with is_playing := true } }, st,
         [Ev.playbackResumed])
    ∧ (pauseRoute db st).1.songs = db.songs
    ∧ (pauseRoute db st).1.votes = db.votes
    ∧ (pauseRoute db st).1.schedules = db.schedules
    ∧ (pauseRoute db st).1.playback.current_song_id = db.playback.current_song_id
    ∧ (pauseRoute db st).1.playback.volume = db.playback.volume
    ∧ (pauseRoute db st).1.playback.position = db.playback.position
    ∧ (pauseRoute db st).1.playback.is_playing = false
    ∧ (resumeRoute db st).1.songs = db.songs
    ∧ (resumeRoute db st).1.votes = db.votes
    ∧ (resumeRoute db st).1.schedules = db.schedules
    ∧ (resumeRoute db st).1.playback.current_song_id = db.playback.current_song_id
    ∧ (resumeRoute db st).1.playback.volume = db.playback.volume
    ∧ (resumeRoute db st).1.playback.position = db.playback.position
    ∧ (resumeRoute db st).1.playback.is_playing = true
    ∧ (pauseRoute db st).2.1 = st ∧ (resumeRoute db st).2.1 = st := by
  simp [pauseRoute, resumeRoute]

/-- C9: for a sender that is not the active admin session (not a marked
admin socket, or not the currently active one), the four gated handlers
change no server playback state, no scheduler state, and emit nothing. -/
theorem nonAdmin_handlers_noop
    (a b : Bool) (data : PlayPayload) (env : Env) (db : DB) (st : SchedulerState)
    (g : SocketGlobals) (pb : PlaybackStateRec) (now : Int)
    (h : (a && b) = false) :
    onSongStarted a b data now g = (g, [])
    ∧ onSongEndedNotify a b env db st g now = (db, st, g, [])
    ∧ onPlaybackStopped a b g = (g, [])
    ∧ onGetPlaybackState a b g pb now = [] := by
  unfold onSongStarted onSongEndedNotify onPlaybackStopped onGetPlaybackState
  rw [h]
  simp

/-- C9 witness at a concrete non-active admin socket. -/
theorem nonAdmin_handlers_noop_witness :
    onSongStarted false true payloadC 0 gC = (gC, [])
    ∧ onSongEndedNotify false true envFail dbA stA gC 0 = (dbA, stA, gC, [])
    ∧ onPlaybackStopped false true gC = (gC, [])
    ∧ onGetPlaybackState false true gC pbIdle 0 = [] :=
  nonAdmin_handlers_noop false true payloadC envFail dbA stA gC pbIdle 0 rfl

/-- C7 counterexample: the cache exists, the persisted row says playing,
and the cache is fresh, yet the handler answers idle because the persisted
current song id is null (a state the offline branch of POST /next writes). -/
theorem getPlaybackState_counterexample :
    (gC.lastPlayedSongData ≠ none ∧ pbPlayingNoSong.is_playing = true
      ∧ (0 : Int) - cachedC.timestamp ≤ 600000)
    ∧ onGetPlaybackState true true gC pbPlayingNoSong 0 = [Ev.playbackStateIdle] := by
  decide

/-- C7 amended: for the active admin, the handler replays the cached
play-song with the reconnect flag exactly when the cache exists, the
persisted row is playing with a non-null current song id, and the cache is
at most ten minutes old; in every other case it answers idle. -/
theorem getPlaybackState_replay_iff (g : SocketGlobals) (pb : PlaybackStateRec)
    (now : Int) :
    onGetPlaybackState true true g pb now =
      (match g.lastPlayedSongData with
       | none => [Ev.playbackStateIdle]
       | some d =>
         if pb.is_playing && pb.current_song_id.isSome
             && decide (now - d.timestamp ≤ 600000) then
           [Ev.playSong (some d.payload.song.id) d.payload.stream_url
             d.payload.volume d.payload.auto_next true]
         else [Ev.playbackStateIdle]) := by
  unfold onGetPlaybackState
  cases hd : g.lastPlayedSongData with
  | none => rfl
  | some d =>
    cases hcs : pb.current_song_id with
    | none => cases hp : pb.is_playing <;> simp
    | some cid =>
      cases hp : pb.is_playing with
      | false => simp
      | true =>
        simp only [Bool.and_self, if_true, Bool.not_true, Option.isNone_some,
          Bool.false_or, Option.isSome_some, Bool.true_and]
        by_cases ht : 600000 < now - d.timestamp
        · rw [if_pos ht]
          have hle : ¬ (now - d.timestamp ≤ 600000) := by omega
          simp [hle]
        · rw [if_neg ht]
          have hle : now - d.timestamp ≤ 600000 := by omega
          simp [hle]

/-- C8: the prefix check of the offline streaming endpoint admits a
sibling directory whose name extends the library directory's name: the
traversal filename resolves outside the library yet passes the check,
while a plain two-level traversal is rejected. -/
theorem streamOffline_check_bypass :
    streamOfflineCheck offlineMusicDir ["..", "offline-music-evil", "x.mp3"] = true
    ∧ insideLibrary offlineMusicDir ["..", "offline-music-evil", "x.mp3"] = false
    ∧ streamOfflineCheck offlineMusicDir ["..", "..", "secret.mp3"] = false
    ∧ streamOfflineCheck offlineMusicDir ["track.mp3"] = true
    ∧ insideLibrary offlineMusicDir ["track.mp3"] = true := by
  decide

/-- C4: for the cron 0 0 * * 1 (Mondays at midnight) the generated
pre-fetch rule keeps day-of-week 1 while borrowing the hour, so it fires
Mondays 23:55, which is not five minutes before any main firing, and the
main firing Monday 00:00 has no pre-fetch five minutes earlier (Sunday
23:55); a wildcard-minute cron yields no pre-fetch job. -/
theorem createPreDownloadJob_day_borrow_bug :
    createPreDownloadJob cronMon = some preRuleMon
    ∧ ruleMatchesWeek preRuleMon { dow := 1, hour := 23, minute := 55 } = true
    ∧ cronMatchesWeek cronMon
        (addMinutesWeek { dow := 1, hour := 23, minute := 55 } 5) = false
    ∧ cronMatchesWeek cronMon { dow := 1, hour := 0, minute := 0 } = true
    ∧ ruleMatchesWeek preRuleMon
        (addMinutesWeek { dow := 1, hour := 0, minute := 0 } (10080 - 5)) = false
    ∧ createPreDownloadJob { cronMon with minute := .star } = none
    ∧ createPreDownloadJob { cronMon with minute := .num 30, hour := .num 17 } ≠ none := by
  decide


theorem findSchedule_updateScheduleRow (db : DB) (sid : Nat) (f : Schedule → Schedule)
    (hid : ∀ x, (f x).id = x.id) :
    findSchedule (updateScheduleRow db sid f) sid = (findSchedule db sid).map f := by
  unfold findSchedule updateScheduleRow
  simp only
  rw [find?_map_comm _ _ _ (fun x => by cases h : x.id == sid <;> simp [h, hid])]
  cases hfind : db.schedules.find? (fun x => x.id == sid) with
  | none => rfl
  | some sch =>
    have := List.find?_some hfind
    simp only [Option.map_some']
    rw [if_pos this]

theorem playPreparedSong_schedules (env : Env) (db : DB) (pd : PreparedData)
    (now : Int) (v : Nat) (a : Bool) :
    (playPreparedSong env db pd now v a).1.schedules = db.schedules := by
  unfold playPreparedSong
  cases pd.song <;> cases env.offlineMusic <;>
    simp [updateSongRow] <;> split <;> simp [updateSongRow]

theorem playTopSong_schedules (env : Env) (db : DB) (now : Int) (v : Nat) (a : Bool) :
    (playTopSong env db now v a).1.schedules = db.schedules := by
  unfold playTopSong
  cases Song.getTopVoted db.songs db.votes <;> cases env.offlineMusic <;>
    simp [updateSongRow]

theorem nextRunRefresh_schedules_shape (db : DB) (st : SchedulerState) (sid : Nat) :
    findSchedule (nextRunRefresh db st sid) sid
      = (match lookupEntry st.jobs sid with
         | some nextInv => (findSchedule db sid).map (fun x => { x with next_run := nextInv })
         | none => findSchedule db sid) := by
  unfold nextRunRefresh
  cases lookupEntry st.jobs sid with
  | none => rfl
  | some nextInv => exact findSchedule_updateScheduleRow db sid _ (fun x => rfl)

/-- findSchedule only reads the schedules list. -/
theorem findSchedule_schedules_congr (db db2 : DB) (sid : Nat)
    (h : db.schedules = db2.schedules) : findSchedule db sid = findSchedule db2 sid := by
  unfold findSchedule
  rw [h]

/-- A run of executeSchedule either broadcasts nothing, or ends with the
schedule row present, active and stamped last-run now. -/
theorem executeSchedule_shape (env : Env) (db : DB) (st : SchedulerState)
    (sid volume songCount : Nat) (now : Int) :
    (executeSchedule env db st sid volume songCount now).2.2 = [] ∨
    (∃ sch2, findSchedule (executeSchedule env db st sid volume songCount now).1 sid
        = some sch2 ∧ sch2.last_run = some now ∧ sch2.is_active = true) := by
  unfold executeSchedule
  cases hsch : findSchedule db sid with
  | none => left; rfl
  | some sch =>
    cases hact : sch.is_active with
    | false => left; simp [hact]
    | true =>
      simp only [hact, Bool.not_true, Bool.false_eq_true, if_false]
      set recent := (match sch.last_run with
        | some lr => decide (now - lr < 600000)
        | none => false) with hrec
      cases hr : recent with
      | true => left; simp [hr]
      | false =>
        right
        simp only [hr, Bool.false_eq_true, if_false]
        set db1 := updateScheduleRow db sid (fun x => { x with last_run := some now })
          with hdb1
        have hdb1find : findSchedule db1 sid = some { sch with last_run := some now } := by
          rw [hdb1, findSchedule_updateScheduleRow db sid
            (fun x => { x with last_run := some now }) (fun x => rfl), hsch]
          rfl
        set st1 := { st with remainingSongsInSchedule := songCount - 1 } with hst1
        set step := (match lookupEntry st1.scheduledSongs sid with
          | some pd =>
            let de := playPreparedSong env db1 pd now volume
              (decide (0 < st1.remainingSongsInSchedule))
            (de.1, { st1 with scheduledSongs := delEntry st1.scheduledSongs sid }, de.2)
          | none =>
            let de := playTopSong env db1 now volume
              (decide (0 < st1.remainingSongsInSchedule))
            (de.1, st1, de.2)) with hstep
        have hstepsched : step.1.schedules = db1.schedules := by
          rw [hstep]
          cases lookupEntry st1.scheduledSongs sid with
          | some pd => exact playPreparedSong_schedules env db1 pd now volume _
          | none => exact playTopSong_schedules env db1 now volume _
        have hstepfind : findSchedule step.1 sid = some { sch with last_run := some now } := by
          rw [findSchedule_schedules_congr step.1 db1 sid hstepsched]
          exact hdb1find
        rw [nextRunRefresh_schedules_shape]
        cases lookupEntry (if 0 < step.2.1.remainingSongsInSchedule then
            prepareNextSongInSchedule env step.1 step.2.1 else step.2.1).jobs sid with
        | none =>
          exact ⟨{ sch with last_run := some now }, hstepfind, rfl, hact⟩
        | some nextInv =>
          refine ⟨{ { sch with last_run := some now } with next_run := nextInv }, ?_, rfl, hact⟩
          rw [hstepfind]
          rfl

/-- A skipped run: under the guard hypotheses the run only refreshes
next-run and emits nothing. -/
theorem executeSchedule_skip (env : Env) (db : DB) (st : SchedulerState)
    (sid volume songCount : Nat) (sch : Schedule) (lr now : Int)
    (hsch : findSchedule db sid = some sch) (hact : sch.is_active = true)
    (hlr : sch.last_run = some lr) (hrecent : now - lr < 600000) :
    executeSchedule env db st sid volume songCount now
      = (nextRunRefresh db st sid, st, []) := by
  unfold executeSchedule
  rw [hsch]
  simp [hact, hlr, hrecent]

/-- C3: under the re-entrancy guard (last-run under ten minutes old) a run
of executeSchedule performs no broadcast at all, leaves the scheduler
state (burst counter included) untouched, and changes the database only by
persisting the registered job's next invocation into next-run; last-run is
unchanged.  Consequently two consecutive runs for the same schedule less
than ten minutes apart broadcast at most one set of play events. -/
theorem executeSchedule_reentrancy_guard (env : Env) (db : DB) (st : SchedulerState)
    (sid volume songCount : Nat) (sch : Schedule) (lr now : Int)
    (hsch : findSchedule db sid = some sch) (hact : sch.is_active = true)
    (hlr : sch.last_run = some lr) (hrecent : now - lr < 600000) :
    executeSchedule env db st sid volume songCount now
        = (nextRunRefresh db st sid, st, [])
    ∧ (findSchedule (nextRunRefresh db st sid) sid).map (·.last_run)
        = some (some lr)
    ∧ (∀ (env1 env2 : Env) (db0 : DB) (st0 : SchedulerState) (v1 c1 v2 c2 : Nat)
        (t1 t2 : Int), t2 - t1 < 600000 →
        ¬((executeSchedule env1 db0 st0 sid v1 c1 t1).2.2.any Ev.isPlay = true ∧
          ((executeSchedule env2 (executeSchedule env1 db0 st0 sid v1 c1 t1).1
              (executeSchedule env1 db0 st0 sid v1 c1 t1).2.1 sid v2 c2
              t2).2.2.any Ev.isPlay = true))) := by
  refine ⟨executeSchedule_skip env db st sid volume songCount sch lr now
      hsch hact hlr hrecent, ?_, ?_⟩
  · rw [nextRunRefresh_schedules_shape]
    cases lookupEntry st.jobs sid with
    | none => rw [hsch]; simp [hlr]
    | some nextInv => rw [hsch]; simp [hlr]
  · intro env1 env2 db0 st0 v1 c1 v2 c2 t1 t2 ht h
    obtain ⟨h1, h2⟩ := h
    rcases executeSchedule_shape env1 db0 st0 sid v1 c1 t1 with he | ⟨sch2, hf2, hlr2, hact2⟩
    · rw [he] at h1
      simp at h1
    · have hskip := executeSchedule_skip env2 (executeSchedule env1 db0 st0 sid v1 c1 t1).1
        (executeSchedule env1 db0 st0 sid v1 c1 t1).2.1 sid v2 c2 sch2 t1 t2
        hf2 hact2 hlr2 ht
      rw [hskip] at h2
      simp at h2

/-- C3 witness: at a schedule last run at time 0, a call at time 30000
(half a minute later) skips. -/
theorem executeSchedule_reentrancy_guard_witness :
    executeSchedule envFail dbB stA 1 70 1 30000 = (nextRunRefresh dbB stA 1, stA, []) :=
  (executeSchedule_reentrancy_guard envFail dbB stA 1 70 1 schedB 0 30000
    (by decide) (by decide) (by decide) (by decide)).1


theorem lookupEntry_delEntry_self {α : Type} (l : List (Nat × α)) (k : Nat) :
    lookupEntry (delEntry l k) k = none := by
  unfold lookupEntry delEntry
  induction l with
  | nil => rfl
  | cons a t ih =>
    cases ha : a.1 == k with
    | true =>
      simp only [List.filter_cons, ha, bne, Bool.not_true, Bool.false_eq_true, if_false]
      exact ih
    | false =>
      simp only [List.filter_cons, ha, bne, Bool.not_false, if_true]
      rw [List.find?_cons_of_neg _ (by simp [ha])]
      exact ih

/-- Reduction of POST /next when the first locked slot is visible and its
cached entry exists. -/
theorem nextRoute_locked_reduce (env : Env) (db : DB) (st : SchedulerState)
    (now : Int) (sid : Nat) (tl : List Nat) (pd : PreparedData)
    (hfirst : getLockedSongs db
      { st with remainingSongsInSchedule := 0, nextSongPrepared := none } = sid :: tl)
    (hpd : lookupEntry st.scheduledSongs sid = some pd) :
    nextRoute env db st now =
      (match pd.song with
       | none => nextRouteLockedOffline env db
           { st with remainingSongsInSchedule := 0, nextSongPrepared := none } sid now
       | some s =>
         if pd.isOffline then nextRouteLockedOffline env db
             { st with remainingSongsInSchedule := 0, nextSongPrepared := none } sid now
         else nextRouteLockedSong db
             { st with remainingSongsInSchedule := 0, nextSongPrepared := none }
             sid pd s now) := by
  unfold nextRoute
  rw [hfirst]
  dsimp only
  rw [hpd]

/-- C5 amended: when getLockedSongs reports a first locked slot (its
schedule exists with a non-null next-run) and the slot's cached entry is
present, POST /next never consults the live queue: its result is the
locked branch, independent of songs and votes.  A ready slot is played
with auto-next false, deleted, and the schedule's last-run stamped (200).
An offline-fallback slot does the same with a random library track when
one exists; with an empty library it responds 404 and leaves the slot, the
schedules and the playback row untouched (only the burst counter is
reset). -/
theorem nextRoute_locked_slot_wins (env : Env) (db : DB) (st : SchedulerState)
    (now : Int) (sid : Nat) (tl : List Nat) (pd : PreparedData)
    (hfirst : getLockedSongs db
      { st with remainingSongsInSchedule := 0, nextSongPrepared := none } = sid :: tl)
    (hpd : lookupEntry st.scheduledSongs sid = some pd) :
    (∀ songs2 votes2,
      nextRoute env { db with songs := songs2, votes := votes2 } st now
        = ({ (nextRoute env db st now).1 with songs := songs2, votes := votes2 },
           (nextRoute env db st now).2.1, (nextRoute env db st now).2.2.1,
           (nextRoute env db st now).2.2.2))
    ∧ (∀ s, pd.song = some s → pd.isOffline = false →
        (nextRoute env db st now).2.2.1.any Ev.isPlay = true
        ∧ allPlaysManual (nextRoute env db st now).2.2.1 = true
        ∧ lookupEntry (nextRoute env db st now).2.1.scheduledSongs sid = none
        ∧ (findSchedule (nextRoute env db st now).1 sid).map (·.last_run)
            = (findSchedule db sid).map (fun _ => some now)
        ∧ (nextRoute env db st now).2.2.2 = 200)
    ∧ ((pd.song = none ∨ pd.isOffline = true) → ∀ m, env.offlineMusic = some m →
        (nextRoute env db st now).2.2.1
            = [Ev.playSong none (offlineStreamUrl m) db.playback.volume false false]
        ∧ lookupEntry (nextRoute env db st now).2.1.scheduledSongs sid = none
        ∧ (findSchedule (nextRoute env db st now).1 sid).map (·.last_run)
            = (findSchedule db sid).map (fun _ => some now)
        ∧ (nextRoute env db st now).2.2.2 = 200)
    ∧ ((pd.song = none ∨ pd.isOffline = true) → env.offlineMusic = none →
        nextRoute env db st now
            = (db, { st with remainingSongsInSchedule := 0, nextSongPrepared := none },
               [], 404)
        ∧ lookupEntry (nextRoute env db st now).2.1.scheduledSongs sid = some pd) := by
  have hred := nextRoute_locked_reduce env db st now sid tl pd hfirst hpd
  have hlastrun : ∀ db0 : DB, db0.schedules = db.schedules →
      (findSchedule (updateScheduleRow db0 sid (fun x => { x with last_run := some now }))
          sid).map (·.last_run)
        = (findSchedule db sid).map (fun _ => some now) := by
    intro db0 hsame
    rw [findSchedule_updateScheduleRow db0 sid (fun x => { x with last_run := some now })
      (fun x => rfl)]
    rw [findSchedule_schedules_congr db0 db sid hsame]
    cases findSchedule db sid <;> rfl
  refine ⟨?_, ?_, ?_, ?_⟩
  · intro songs2 votes2
    have hred2 := nextRoute_locked_reduce env { db with songs := songs2, votes := votes2 }
      st now sid tl pd hfirst hpd
    rw [hred, hred2]
    cases hsong : pd.song with
    | none =>
      unfold nextRouteLockedOffline
      cases env.offlineMusic <;> rfl
    | some s =>
      cases hoff : pd.isOffline with
      | true =>
        simp only [if_true]
        unfold nextRouteLockedOffline
        cases env.offlineMusic <;> rfl
      | false =>
        simp only [Bool.false_eq_true, if_false]
        rfl
  · intro s hsong hoff
    rw [hred, hsong]
    simp only [hoff, Bool.false_eq_true, if_false]
    unfold nextRouteLockedSong
    refine ⟨?_, ?_, ?_, ?_, ?_⟩
    · cases pd.announcementData <;> rfl
    · cases pd.announcementData <;> rfl
    · exact lookupEntry_delEntry_self _ sid
    · exact hlastrun _ rfl
    · rfl
  · intro hoffish m hm
    have hbr : nextRoute env db st now = nextRouteLockedOffline env db
        { st with remainingSongsInSchedule := 0, nextSongPrepared := none } sid now := by
      rw [hred]
      rcases hoffish with h | h
      · rw [h]
      · cases hsong : pd.song with
        | none => rfl
        | some s => simp [h]
    rw [hbr]
    unfold nextRouteLockedOffline
    rw [hm]
    refine ⟨rfl, ?_, ?_, rfl⟩
    · exact lookupEntry_delEntry_self _ sid
    · exact hlastrun _ rfl
  · intro hoffish hm
    have hbr : nextRoute env db st now = nextRouteLockedOffline env db
        { st with remainingSongsInSchedule := 0, nextSongPrepared := none } sid now := by
      rw [hred]
      rcases hoffish with h | h
      · rw [h]
      · cases hsong : pd.song with
        | none => rfl
        | some s => simp [h]
    rw [hbr]
    unfold nextRouteLockedOffline
    rw [hm]
    exact ⟨rfl, hpd⟩

/-- C5 counterexample: an offline-fallback locked slot exists for schedule
1 (visible to getLockedSongs) but the offline library is empty: POST /next
broadcasts nothing, keeps the slot, leaves last-run null and responds 404,
so the slot is neither consumed nor does the command set last-run. -/
theorem nextRoute_locked_slot_counterexample :
    lookupEntry stOff.scheduledSongs 1 = some offlineSlot
    ∧ getLockedSongs dbA
        { stOff with remainingSongsInSchedule := 0, nextSongPrepared := none } = [1]
    ∧ (nextRoute envFail dbA stOff 5000).2.2.1 = []
    ∧ lookupEntry (nextRoute envFail dbA stOff 5000).2.1.scheduledSongs 1
        = some offlineSlot
    ∧ (findSchedule (nextRoute envFail dbA stOff 5000).1 1).map (·.last_run)
        = some none
    ∧ (nextRoute envFail dbA stOff 5000).2.2.2 = 404 := by
  decide

/-- C5 witness: a ready locked slot for schedule 1 is consumed by Next. -/
theorem nextRoute_locked_slot_wins_witness :
    (nextRoute envFail dbA stLocked 5000).2.2.1.any Ev.isPlay = true
    ∧ allPlaysManual (nextRoute envFail dbA stLocked 5000).2.2.1 = true
    ∧ lookupEntry (nextRoute envFail dbA stLocked 5000).2.1.scheduledSongs 1 = none := by
  have h := (nextRoute_locked_slot_wins envFail dbA stLocked 5000 1 [] slotB
      (by decide) (by decide)).2.1 songB.reserveForSchedule (by decide) (by decide)
  exact ⟨h.1, h.2.1, h.2.2.1⟩

end MusicPlayer
